import Mathlib

/-!
Verification of the provisioning and render pipeline in src/app.py.

The file shallowly embeds the two Flask routes of app.py:

* handle_new_record (POST /handle-new-record, lines 111-197): filters the
  inbound Baserow webhook payload, creates a Google Drive folder, grants a
  public-read permission, and patches the triggering record with the folder
  link and a computed profile link.  External calls are modelled by an
  environment of per-run outcomes, and the handler returns the HTTP
  response together with the ordered trace of outbound calls it made.

* generate_sponsor_pdf (GET /student-details/<int:student_id>, lines
  71-107): fetches a record and renders it to a PDF.  The Jinja template
  engine and the WeasyPrint compiler are third-party libraries, passed in
  as opaque functions.
-/

namespace App

/-- Process configuration read once at startup from the environment
(lines 31-41 of app.py). -/
structure Config where
  BASEROW_API_URL : String
  BASEROW_TOKEN : String
  TABLE_ID : String
  GOOGLE_DRIVE_PARENT_FOLDER_ID : String
  API_ENDPOINT : String
deriving DecidableEq

/-- One element of the webhook payload items array, restricted to the keys
the handler reads: id is items[0].get("id"), fullName is
items[0].get("Full Name").  A missing key yields none, matching the
behaviour of dict.get. -/
structure Item where
  id : Option Int
  fullName : Option String
deriving DecidableEq

/-- The parsed webhook JSON payload, restricted to the keys
handle_new_record reads: event_type, table_id and items
(payload.get("items", []) turns a missing key into the empty list). -/
structure Payload where
  event_type : Option String
  table_id : Option Int
  items : List Item
deriving DecidableEq

/-- A webhook request body: either request.get_json() raises (malformed or
non-JSON body, the exception message is kept) or it yields a payload. -/
inductive Inbound
  | malformed (excMsg : String)
  | parsed (p : Payload)
deriving DecidableEq

/-- Python str() as applied by an f-string to row_id or table_id values
that came out of dict.get: None prints as "None", an integer prints in
decimal. -/
def pyStr : Option Int → String
  | none => "None"
  | some n => toString n

/-- Outcome of drive_service.files().create(...).execute() (lines
152-156): the returned resource carries the requested fields id and
webViewLink, or the call raises. -/
inductive DriveCreateResult
  | ok (id webViewLink : String)
  | raises (msg : String)
deriving DecidableEq

/-- Outcome of drive_service.permissions().create(...).execute()
(lines 163-165): success or a raised exception. -/
inductive PermCreateResult
  | ok
  | raises (msg : String)
deriving DecidableEq

/-- The requests.patch response (line 181): response.ok is status < 400,
and response.raise_for_status() raises exactly when 400 <= status < 600. -/
structure PatchResponse where
  status : Nat
  text : String
deriving DecidableEq

/-- Per-run outcomes of the three external calls the webhook handler can
make, in program order. -/
structure Env where
  driveCreate : DriveCreateResult
  permCreate : PermCreateResult
  patchResp : PatchResponse
deriving DecidableEq

/-- The folder_metadata dict built at lines 146-150. -/
structure FolderMetadata where
  name : String
  mimeType : String
  parents : List String
deriving DecidableEq

/-- The permission_metadata dict built at line 162. -/
structure PermissionMetadata where
  type : String
  role : String
deriving DecidableEq

/-- One outbound external call of a webhook run, with the arguments the
code passes. -/
inductive Call
  | filesCreate (body : FolderMetadata) (fields : String)
  | permissionsCreate (fileId : String) (body : PermissionMetadata) (fields : String)
  | requestsPatch (url : String) (updateData : List (String × String))
deriving DecidableEq

/-- A JSON value as it occurs in the handler response dicts. -/
inductive JVal
  | s (v : String)
  | b (v : Bool)
deriving DecidableEq

/-- A JSON object body, as the ordered key-value pairs of the Python dict
literal the handler returns. -/
abbrev Body := List (String × JVal)

/-- The value of the "status" key of a response body. -/
def statusOf (b : Body) : Option JVal :=
  (b.find? (fun kv => kv.fst == "status")).map Prod.snd

/-- The message of the requests.HTTPError raised by raise_for_status at
line 189 (the real message also carries the upstream reason phrase and
body, which the claims never inspect). -/
def raiseForStatusMsg (status : Nat) (url : String) : String :=
  if status < 500 then toString status ++ " Client Error for url: " ++ url
  else toString status ++ " Server Error for url: " ++ url

/-- Shallow embedding of handle_new_record (src/app.py lines 111-197).
Returns the HTTP response (Flask wraps a returned dict in a 200 JSON
response) paired with the ordered trace of outbound external calls.  Any
exception raised inside the try block is caught at line 194 and turned
into a status error body carrying str(e). -/
def handle_new_record (cfg : Config) (env : Env) (inb : Inbound) :
    (Nat × Body) × List Call :=
  match inb with
  | .malformed excMsg =>
      ((200, [("status", .s "error"), ("reason", .s excMsg)]), [])
  | .parsed payload =>
      if payload.event_type ≠ some "rows.created" then
        ((200, [("status", .s "ignored"), ("reason", .s "Not a row creation event")]), [])
      else
        match payload.items with
        | [] =>
            ((200, [("status", .s "error"), ("reason", .s "No items in payload")]), [])
        | student_data :: _ =>
            let row_id := student_data.id
            if row_id = some 0 then
              ((200, [("status", .s "ignored"),
                      ("reason", .s "Row ID invalid/Webhook test successful, your pick.")]), [])
            else
              let student_name := student_data.fullName.getD "Unknown"
              let folder_name := pyStr row_id ++ " - " ++ student_name
              let folder_metadata : FolderMetadata :=
                ⟨folder_name, "application/vnd.google-apps.folder",
                 [cfg.GOOGLE_DRIVE_PARENT_FOLDER_ID]⟩
              let createCall := Call.filesCreate folder_metadata "id, webViewLink"
              match env.driveCreate with
              | .raises msg =>
                  ((200, [("status", .s "error"), ("reason", .s msg)]), [createCall])
              | .ok folder_id folder_link =>
                  let permission_metadata : PermissionMetadata := ⟨"anyone", "reader"⟩
                  let permCall := Call.permissionsCreate folder_id permission_metadata "id"
                  match env.permCreate with
                  | .raises msg =>
                      ((200, [("status", .s "error"), ("reason", .s msg)]),
                       [createCall, permCall])
                  | .ok =>
                      let profile_link :=
                        cfg.API_ENDPOINT ++ "/student-details/" ++ pyStr row_id
                      let update_url :=
                        cfg.BASEROW_API_URL ++ pyStr payload.table_id ++ "/" ++
                          pyStr row_id ++ "/?user_field_names=true"
                      let update_data :=
                        [("Google Drive Link", folder_link), ("Profile", profile_link)]
                      let patchCall := Call.requestsPatch update_url update_data
                      if 400 ≤ env.patchResp.status ∧ env.patchResp.status < 600 then
                        ((200, [("status", .s "error"),
                                ("reason",
                                 .s (raiseForStatusMsg env.patchResp.status update_url))]),
                         [createCall, permCall, patchCall])
                      else
                        ((200, [("status", .s "success"),
                                ("folder_name", .s folder_name),
                                ("link_added", .b true)]),
                         [createCall, permCall, patchCall])

/-- The requests.patch calls of a trace. -/
def patchCalls (trace : List Call) : List Call :=
  trace.filter (fun c => match c with | .requestsPatch _ _ => true | _ => false)

/-- The permissions().create calls of a trace. -/
def permCalls (trace : List Call) : List Call :=
  trace.filter (fun c => match c with | .permissionsCreate _ _ _ => true | _ => false)

/-- The upstream Baserow response to the record GET of the render path
(lines 80-83): HTTP status, and the decoded JSON record which the code
reads only when the status is 200. -/
structure FetchResponse where
  status : Nat
  record : Item
deriving DecidableEq

/-- The value an HTTP route handler produces: an abort(status, description)
or a Response page with a body, a mimetype and a Content-Disposition
header. -/
inductive HttpResult
  | aborted (status : Nat) (description : String)
  | page (status : Nat) (body : List Nat) (mimetype : String) (contentDisposition : String)
deriving DecidableEq

/-- Shallow embedding of generate_sponsor_pdf (src/app.py lines 71-107).
renderTemplate models Template(html_template).render(student=student_data)
and writePdf models HTML(string=rendered_html).write_pdf(); both are
third-party library calls, opaque to this repository, so they are passed
in as functions.  templ is the content of profile_template.html read at
line 93-94 and fetch is the Baserow GET outcome. -/
def generate_sponsor_pdf (renderTemplate : String → Item → String)
    (writePdf : String → List Nat) (student_id : Nat)
    (fetch : FetchResponse) (templ : String) : HttpResult :=
  if fetch.status ≠ 200 then
    .aborted 404 "Student record not found"
  else
    let student_data := fetch.record
    let rendered_html := renderTemplate templ student_data
    let pdf_bytes := writePdf rendered_html
    .page 200 pdf_bytes "application/pdf"
      ("inline; filename=\"" ++ student_data.fullName.getD "Student" ++ "_" ++
        toString student_id ++ ".pdf\"")

/-- Following the words of the spec, for comparison with the code: a
string is sanitized for use as a filename only if it contains neither the
path separator / nor a double quote (a double quote would moreover
terminate the quoted filename="..." header value early). -/
def spec_filenameSanitized (s : String) : Bool :=
  s.data.all (fun c => (c != '/') && (c != '"'))

/-- C7: a payload whose event_type is not rows.created is answered with
the ignored body (reason "Not a row creation event") and no external call
is made. -/
theorem C7_not_creation_ignored (cfg : Config) (env : Env) (p : Payload)
    (he : p.event_type ≠ some "rows.created") :
    handle_new_record cfg env (.parsed p) =
      ((200, [("status", .s "ignored"), ("reason", .s "Not a row creation event")]), []) := by
  simp [handle_new_record, he]

theorem C7_not_creation_ignored_witness :
    handle_new_record ⟨"https://api.baserow.io/api/database/rows/table/", "tok", "501",
        "parent", "https://example.org"⟩
      ⟨.ok "fid" "https://drive/link", .ok, ⟨200, "ok"⟩⟩
      (.parsed ⟨some "rows.updated", some 7, [⟨some 3, some "Ada"⟩]⟩) =
      ((200, [("status", .s "ignored"), ("reason", .s "Not a row creation event")]), []) :=
  C7_not_creation_ignored _ _ _ (by decide)

/-- C8: a rows.created payload whose first item has id 0 is answered with
the ignored body (reason "Row ID invalid/Webhook test successful, your
pick.") and no external call is made. -/
theorem C8_sentinel_zero_ignored (cfg : Config) (env : Env) (p : Payload)
    (item : Item) (rest : List Item)
    (he : p.event_type = some "rows.created") (hi : p.items = item :: rest)
    (hid : item.id = some 0) :
    handle_new_record cfg env (.parsed p) =
      ((200, [("status", .s "ignored"),
              ("reason", .s "Row ID invalid/Webhook test successful, your pick.")]), []) := by
  simp [handle_new_record, he, hi, hid]

theorem C8_sentinel_zero_ignored_witness :
    handle_new_record ⟨"https://api.baserow.io/api/database/rows/table/", "tok", "501",
        "parent", "https://example.org"⟩
      ⟨.ok "fid" "https://drive/link", .ok, ⟨200, "ok"⟩⟩
      (.parsed ⟨some "rows.created", some 7, [⟨some 0, some "Test"⟩]⟩) =
      ((200, [("status", .s "ignored"),
              ("reason", .s "Row ID invalid/Webhook test successful, your pick.")]), []) :=
  C8_sentinel_zero_ignored _ _ _ _ _ rfl rfl rfl

/-- C4 counterexample: a rows.created payload with empty items is answered
with status "error" (reason "No items in payload"), not with status
"ignored" as the claim states. -/
theorem C4_counterexample :
    handle_new_record ⟨"https://api.baserow.io/api/database/rows/table/", "tok", "501",
        "parent", "https://example.org"⟩
      ⟨.ok "fid" "https://drive/link", .ok, ⟨200, "ok"⟩⟩
      (.parsed ⟨some "rows.created", some 7, []⟩) =
      ((200, [("status", .s "error"), ("reason", .s "No items in payload")]), []) ∧
    statusOf [("status", .s "error"), ("reason", .s "No items in payload")] ≠
      some (.s "ignored") := by
  exact ⟨rfl, by decide⟩

/-- C4 amended: a rows.created payload with empty items is answered with
the error body (status "error", reason "No items in payload") and no call
to the storage service or the record store is made. -/
theorem C4_empty_items_error (cfg : Config) (env : Env) (p : Payload)
    (he : p.event_type = some "rows.created") (hi : p.items = []) :
    handle_new_record cfg env (.parsed p) =
      ((200, [("status", .s "error"), ("reason", .s "No items in payload")]), []) := by
  simp [handle_new_record, he, hi]

theorem C4_empty_items_error_witness :
    handle_new_record ⟨"https://api.baserow.io/api/database/rows/table/", "tok", "501",
        "parent", "https://example.org"⟩
      ⟨.ok "fid" "https://drive/link", .ok, ⟨200, "ok"⟩⟩
      (.parsed ⟨some "rows.created", some 7, []⟩) =
      ((200, [("status", .s "error"), ("reason", .s "No items in payload")]), []) :=
  C4_empty_items_error _ _ _ rfl rfl

/-- C2: on an accepted event (rows.created, a first item, id not the
sentinel 0), if the Drive folder creation raises, then no patch call is
made in that run and the handler terminates with an error body. -/
theorem C2_folder_failure_no_patch (cfg : Config) (env : Env) (p : Payload)
    (item : Item) (rest : List Item) (msg : String)
    (he : p.event_type = some "rows.created") (hi : p.items = item :: rest)
    (hid : item.id ≠ some 0)
    (hd : env.driveCreate = .raises msg) :
    patchCalls (handle_new_record cfg env (.parsed p)).2 = [] ∧
    statusOf (handle_new_record cfg env (.parsed p)).1.2 = some (.s "error") := by
  simp [handle_new_record, he, hi, hid, hd, patchCalls, statusOf]

theorem C2_folder_failure_no_patch_witness :
    patchCalls (handle_new_record ⟨"https://api.baserow.io/api/database/rows/table/", "tok",
        "501", "parent", "https://example.org"⟩
      ⟨.raises "quota exceeded", .ok, ⟨200, "ok"⟩⟩
      (.parsed ⟨some "rows.created", some 7, [⟨some 42, some "Ada Lovelace"⟩]⟩)).2 = [] ∧
    statusOf (handle_new_record ⟨"https://api.baserow.io/api/database/rows/table/", "tok",
        "501", "parent", "https://example.org"⟩
      ⟨.raises "quota exceeded", .ok, ⟨200, "ok"⟩⟩
      (.parsed ⟨some "rows.created", some 7,
        [⟨some 42, some "Ada Lovelace"⟩]⟩)).1.2 = some (.s "error") :=
  C2_folder_failure_no_patch _ _ _ _ _ _ rfl rfl (by decide) rfl

/-- C1: on a successful run for an accepted rows.created event with record
id r and display name n, exactly one patch call is made, at the URL of
record r in the table named by the event, with exactly the two fields
Google Drive Link (the created folder shareable link) and Profile
(API_ENDPOINT/student-details/r), and the response body is the success
dict with folder_name "r - n" and link_added true. -/
theorem C1_success_patch (cfg : Config) (env : Env) (p : Payload)
    (item : Item) (rest : List Item) (r : Int) (n fid flink : String)
    (he : p.event_type = some "rows.created") (hi : p.items = item :: rest)
    (hid : item.id = some r) (hr : r ≠ 0) (hn : item.fullName = some n)
    (hd : env.driveCreate = .ok fid flink) (hp : env.permCreate = .ok)
    (hs : env.patchResp.status < 400) :
    patchCalls (handle_new_record cfg env (.parsed p)).2 =
      [Call.requestsPatch
        (cfg.BASEROW_API_URL ++ pyStr p.table_id ++ "/" ++ toString r ++
          "/?user_field_names=true")
        [("Google Drive Link", flink),
         ("Profile", cfg.API_ENDPOINT ++ "/student-details/" ++ toString r)]] ∧
    (handle_new_record cfg env (.parsed p)).1.2 =
      [("status", .s "success"), ("folder_name", .s (toString r ++ " - " ++ n)),
       ("link_added", .b true)] := by
  have hnp : ¬ (400 ≤ env.patchResp.status ∧ env.patchResp.status < 600) :=
    fun h => absurd hs (Nat.not_lt.mpr h.1)
  simp [handle_new_record, he, hi, hid, hr, hn, hd, hp, hnp, patchCalls, pyStr]

theorem C1_success_patch_witness :
    patchCalls (handle_new_record ⟨"https://api.baserow.io/api/database/rows/table/", "tok",
        "501", "parent", "https://example.org"⟩
      ⟨.ok "fid" "https://drive/link", .ok, ⟨200, "ok"⟩⟩
      (.parsed ⟨some "rows.created", some 7, [⟨some 42, some "Ada Lovelace"⟩]⟩)).2 =
      [Call.requestsPatch
        "https://api.baserow.io/api/database/rows/table/7/42/?user_field_names=true"
        [("Google Drive Link", "https://drive/link"),
         ("Profile", "https://example.org/student-details/42")]] ∧
    (handle_new_record ⟨"https://api.baserow.io/api/database/rows/table/", "tok",
        "501", "parent", "https://example.org"⟩
      ⟨.ok "fid" "https://drive/link", .ok, ⟨200, "ok"⟩⟩
      (.parsed ⟨some "rows.created", some 7, [⟨some 42, some "Ada Lovelace"⟩]⟩)).1.2 =
      [("status", .s "success"), ("folder_name", .s "42 - Ada Lovelace"),
       ("link_added", .b true)] :=
  C1_success_patch _ _ _ _ _ 42 "Ada Lovelace" "fid" "https://drive/link"
    rfl rfl rfl (by decide) rfl rfl rfl (by decide)

/-- C3: every webhook request, malformed bodies and raising external calls
included, is answered with HTTP 200 and a JSON body whose status field is
one of success, ignored or error. -/
theorem C3_always_200_classified (cfg : Config) (env : Env) (inb : Inbound) :
    (handle_new_record cfg env inb).1.1 = 200 ∧
      (statusOf (handle_new_record cfg env inb).1.2 = some (.s "success") ∨
       statusOf (handle_new_record cfg env inb).1.2 = some (.s "ignored") ∨
       statusOf (handle_new_record cfg env inb).1.2 = some (.s "error")) := by
  cases inb with
  | malformed m => exact ⟨rfl, Or.inr (Or.inr rfl)⟩
  | parsed p =>
    obtain ⟨et, tid, its⟩ := p
    by_cases he : et = some "rows.created"
    · subst he
      cases its with
      | nil => exact ⟨rfl, Or.inr (Or.inr rfl)⟩
      | cons item rest =>
        by_cases hz : item.id = some 0
        · simp [handle_new_record, hz, statusOf]
        · obtain ⟨dc, pc, pr⟩ := env
          cases dc with
          | raises m => simp [handle_new_record, hz, statusOf]
          | ok fid flink =>
            cases pc with
            | raises m => simp [handle_new_record, hz, statusOf]
            | ok =>
              by_cases hps : 400 ≤ pr.status ∧ pr.status < 600
              · simp [handle_new_record, hz, hps, statusOf]
              · simp [handle_new_record, hz, hps, statusOf]
    · simp [handle_new_record, he, statusOf]

/-- C5: on an accepted event whose folder creation succeeded, the trace is
the folder-create call, then the permission-grant call for that folder
with body type anyone and role reader, then only patch calls; the grant
occurs exactly once; and if the grant raises, no patch call is made and
the handler terminates with an error body. -/
theorem C5_grant_once_between (cfg : Config) (env : Env) (p : Payload)
    (item : Item) (rest : List Item) (fid flink : String)
    (he : p.event_type = some "rows.created") (hi : p.items = item :: rest)
    (hid : item.id ≠ some 0)
    (hd : env.driveCreate = .ok fid flink) :
    permCalls (handle_new_record cfg env (.parsed p)).2 =
      [Call.permissionsCreate fid ⟨"anyone", "reader"⟩ "id"] ∧
    (∃ meta tail, (handle_new_record cfg env (.parsed p)).2 =
        Call.filesCreate meta "id, webViewLink" ::
          Call.permissionsCreate fid ⟨"anyone", "reader"⟩ "id" :: tail ∧
        patchCalls tail = tail) ∧
    (∀ msg, env.permCreate = .raises msg →
      patchCalls (handle_new_record cfg env (.parsed p)).2 = [] ∧
      statusOf (handle_new_record cfg env (.parsed p)).1.2 = some (.s "error")) := by
  obtain ⟨dc, pc, pr⟩ := env
  cases hd
  cases pc with
  | raises m =>
    refine ⟨?_, ⟨⟨pyStr item.id ++ " - " ++ item.fullName.getD "Unknown",
        "application/vnd.google-apps.folder", [cfg.GOOGLE_DRIVE_PARENT_FOLDER_ID]⟩,
        [], ?_, rfl⟩, ?_⟩
    · simp [handle_new_record, he, hi, hid, permCalls]
    · simp [handle_new_record, he, hi, hid]
    · intro msg _
      simp [handle_new_record, he, hi, hid, patchCalls, statusOf]
  | ok =>
    by_cases hps : 400 ≤ pr.status ∧ pr.status < 600
    · refine ⟨?_, ⟨⟨pyStr item.id ++ " - " ++ item.fullName.getD "Unknown",
          "application/vnd.google-apps.folder", [cfg.GOOGLE_DRIVE_PARENT_FOLDER_ID]⟩,
          [Call.requestsPatch
            (cfg.BASEROW_API_URL ++ pyStr p.table_id ++ "/" ++ pyStr item.id ++
              "/?user_field_names=true")
            [("Google Drive Link", flink),
             ("Profile", cfg.API_ENDPOINT ++ "/student-details/" ++ pyStr item.id)]],
          ?_, ?_⟩, ?_⟩
      · simp [handle_new_record, he, hi, hid, hps, permCalls]
      · simp [handle_new_record, he, hi, hid, hps]
      · simp [patchCalls]
      · intro msg hmsg; cases hmsg
    · refine ⟨?_, ⟨⟨pyStr item.id ++ " - " ++ item.fullName.getD "Unknown",
          "application/vnd.google-apps.folder", [cfg.GOOGLE_DRIVE_PARENT_FOLDER_ID]⟩,
          [Call.requestsPatch
            (cfg.BASEROW_API_URL ++ pyStr p.table_id ++ "/" ++ pyStr item.id ++
              "/?user_field_names=true")
            [("Google Drive Link", flink),
             ("Profile", cfg.API_ENDPOINT ++ "/student-details/" ++ pyStr item.id)]],
          ?_, ?_⟩, ?_⟩
      · simp [handle_new_record, he, hi, hid, hps, permCalls]
      · simp [handle_new_record, he, hi, hid, hps]
      · simp [patchCalls]
      · intro msg hmsg; cases hmsg

theorem C5_grant_once_between_witness :
    permCalls (handle_new_record ⟨"https://api.baserow.io/api/database/rows/table/", "tok",
        "501", "parent", "https://example.org"⟩
      ⟨.ok "fid" "https://drive/link", .raises "grant denied", ⟨200, "ok"⟩⟩
      (.parsed ⟨some "rows.created", some 7, [⟨some 42, some "Ada Lovelace"⟩]⟩)).2 =
      [Call.permissionsCreate "fid" ⟨"anyone", "reader"⟩ "id"] ∧
    (∃ meta tail, (handle_new_record ⟨"https://api.baserow.io/api/database/rows/table/",
        "tok", "501", "parent", "https://example.org"⟩
      ⟨.ok "fid" "https://drive/link", .raises "grant denied", ⟨200, "ok"⟩⟩
      (.parsed ⟨some "rows.created", some 7, [⟨some 42, some "Ada Lovelace"⟩]⟩)).2 =
        Call.filesCreate meta "id, webViewLink" ::
          Call.permissionsCreate "fid" ⟨"anyone", "reader"⟩ "id" :: tail ∧
        patchCalls tail = tail) ∧
    (∀ msg, (Env.mk (.ok "fid" "https://drive/link") (.raises "grant denied")
        ⟨200, "ok"⟩).permCreate = .raises msg →
      patchCalls (handle_new_record ⟨"https://api.baserow.io/api/database/rows/table/",
        "tok", "501", "parent", "https://example.org"⟩
        ⟨.ok "fid" "https://drive/link", .raises "grant denied", ⟨200, "ok"⟩⟩
        (.parsed ⟨some "rows.created", some 7, [⟨some 42, some "Ada Lovelace"⟩]⟩)).2 = [] ∧
      statusOf (handle_new_record ⟨"https://api.baserow.io/api/database/rows/table/",
        "tok", "501", "parent", "https://example.org"⟩
        ⟨.ok "fid" "https://drive/link", .raises "grant denied", ⟨200, "ok"⟩⟩
        (.parsed ⟨some "rows.created", some 7,
          [⟨some 42, some "Ada Lovelace"⟩]⟩)).1.2 = some (.s "error")) :=
  C5_grant_once_between _ _ _ _ _ "fid" "https://drive/link" rfl rfl (by decide) rfl

/-- C10: a rows.created payload whose first item lacks the id key is
neither rejected nor ignored: the sentinel check only compares against
some 0, so a none id passes it, the folder-create call is issued with the
name "None - name", and when the Drive calls succeed the patch call
targets the URL whose record-id segment is the string None (and the
Profile link ends in /student-details/None). -/
theorem C10_missing_id_proceeds (cfg : Config) (env : Env) (p : Payload)
    (item : Item) (rest : List Item) (fid flink : String)
    (he : p.event_type = some "rows.created") (hi : p.items = item :: rest)
    (hid : item.id = none)
    (hd : env.driveCreate = .ok fid flink) (hp : env.permCreate = .ok) :
    statusOf (handle_new_record cfg env (.parsed p)).1.2 ≠ some (.s "ignored") ∧
    (∃ tail, (handle_new_record cfg env (.parsed p)).2 =
      Call.filesCreate
        ⟨"None" ++ " - " ++ item.fullName.getD "Unknown",
         "application/vnd.google-apps.folder", [cfg.GOOGLE_DRIVE_PARENT_FOLDER_ID]⟩
        "id, webViewLink" :: tail) ∧
    patchCalls (handle_new_record cfg env (.parsed p)).2 =
      [Call.requestsPatch
        (cfg.BASEROW_API_URL ++ pyStr p.table_id ++ "/" ++ "None" ++
          "/?user_field_names=true")
        [("Google Drive Link", flink),
         ("Profile", cfg.API_ENDPOINT ++ "/student-details/" ++ "None")]] := by
  obtain ⟨dc, pc, pr⟩ := env
  cases hd
  cases hp
  by_cases hps : 400 ≤ pr.status ∧ pr.status < 600
  · refine ⟨?_, ⟨[Call.permissionsCreate fid ⟨"anyone", "reader"⟩ "id",
        Call.requestsPatch
          (cfg.BASEROW_API_URL ++ pyStr p.table_id ++ "/" ++ "None" ++
            "/?user_field_names=true")
          [("Google Drive Link", flink),
           ("Profile", cfg.API_ENDPOINT ++ "/student-details/" ++ "None")]], ?_⟩, ?_⟩
    · simp [handle_new_record, he, hi, hid, hps, statusOf]
    · simp [handle_new_record, he, hi, hid, hps, pyStr]
    · simp [handle_new_record, he, hi, hid, hps, patchCalls, pyStr]
  · refine ⟨?_, ⟨[Call.permissionsCreate fid ⟨"anyone", "reader"⟩ "id",
        Call.requestsPatch
          (cfg.BASEROW_API_URL ++ pyStr p.table_id ++ "/" ++ "None" ++
            "/?user_field_names=true")
          [("Google Drive Link", flink),
           ("Profile", cfg.API_ENDPOINT ++ "/student-details/" ++ "None")]], ?_⟩, ?_⟩
    · simp [handle_new_record, he, hi, hid, hps, statusOf]
    · simp [handle_new_record, he, hi, hid, hps, pyStr]
    · simp [handle_new_record, he, hi, hid, hps, patchCalls, pyStr]

theorem C10_missing_id_proceeds_witness :
    statusOf (handle_new_record ⟨"https://api.baserow.io/api/database/rows/table/", "tok",
        "501", "parent", "https://example.org"⟩
      ⟨.ok "fid" "https://drive/link", .ok, ⟨200, "ok"⟩⟩
      (.parsed ⟨some "rows.created", some 7, [⟨none, some "Ada Lovelace"⟩]⟩)).1.2 ≠
        some (.s "ignored") ∧
    (∃ tail, (handle_new_record ⟨"https://api.baserow.io/api/database/rows/table/", "tok",
        "501", "parent", "https://example.org"⟩
      ⟨.ok "fid" "https://drive/link", .ok, ⟨200, "ok"⟩⟩
      (.parsed ⟨some "rows.created", some 7, [⟨none, some "Ada Lovelace"⟩]⟩)).2 =
      Call.filesCreate
        ⟨"None" ++ " - " ++ (Item.mk none (some "Ada Lovelace")).fullName.getD "Unknown",
         "application/vnd.google-apps.folder", ["parent"]⟩
        "id, webViewLink" :: tail) ∧
    patchCalls (handle_new_record ⟨"https://api.baserow.io/api/database/rows/table/", "tok",
        "501", "parent", "https://example.org"⟩
      ⟨.ok "fid" "https://drive/link", .ok, ⟨200, "ok"⟩⟩
      (.parsed ⟨some "rows.created", some 7, [⟨none, some "Ada Lovelace"⟩]⟩)).2 =
      [Call.requestsPatch
        ("https://api.baserow.io/api/database/rows/table/" ++ pyStr (some 7) ++ "/" ++
          "None" ++ "/?user_field_names=true")
        [("Google Drive Link", "https://drive/link"),
         ("Profile", "https://example.org" ++ "/student-details/" ++ "None")]] :=
  C10_missing_id_proceeds _ _ _ _ _ "fid" "https://drive/link" rfl rfl rfl rfl rfl

/-- C6 counterexample: the code does not sanitize the display name before
building the Content-Disposition filename; at a record whose Full Name is
Ada/Lovelace the filename keeps the path separator verbatim, so the
filename part is not a sanitized form of the display name. -/
theorem C6_counterexample :
    generate_sponsor_pdf (fun templ _ => templ) (fun _ => [37, 80, 68, 70]) 42
      ⟨200, ⟨some 42, some "Ada/Lovelace"⟩⟩ "templ" =
      .page 200 [37, 80, 68, 70] "application/pdf"
        "inline; filename=\"Ada/Lovelace_42.pdf\"" ∧
    spec_filenameSanitized "Ada/Lovelace" = false := by
  exact ⟨rfl, by decide⟩

/-- C6 amended: a GET of student-details for id with a non-200 store fetch
aborts with 404; a 200 fetch is answered with HTTP 200, mimetype
application/pdf and Content-Disposition inline with filename
name_id.pdf, where name is the record Full Name value used verbatim (no
sanitization) or the placeholder Student when the key is absent. -/
theorem C6_render_endpoint (renderTemplate : String → Item → String)
    (writePdf : String → List Nat) (student_id : Nat)
    (fetch : FetchResponse) (templ : String) :
    (fetch.status ≠ 200 →
      generate_sponsor_pdf renderTemplate writePdf student_id fetch templ =
        .aborted 404 "Student record not found") ∧
    (fetch.status = 200 →
      generate_sponsor_pdf renderTemplate writePdf student_id fetch templ =
        .page 200 (writePdf (renderTemplate templ fetch.record)) "application/pdf"
          ("inline; filename=\"" ++ fetch.record.fullName.getD "Student" ++ "_" ++
            toString student_id ++ ".pdf\"")) := by
  constructor
  · intro h; simp [generate_sponsor_pdf, h]
  · intro h; simp [generate_sponsor_pdf, h]

theorem C6_render_endpoint_witness :
    (generate_sponsor_pdf (fun templ _ => templ) (fun _ => [37, 80, 68, 70]) 42
        ⟨200, ⟨some 42, some "Ada Lovelace"⟩⟩ "templ" =
      .page 200 [37, 80, 68, 70] "application/pdf"
        "inline; filename=\"Ada Lovelace_42.pdf\"") ∧
    (generate_sponsor_pdf (fun templ _ => templ) (fun _ => [37, 80, 68, 70]) 999
        ⟨404, ⟨none, none⟩⟩ "templ" =
      .aborted 404 "Student record not found") :=
  ⟨(C6_render_endpoint (fun templ _ => templ) (fun _ => [37, 80, 68, 70]) 42
      ⟨200, ⟨some 42, some "Ada Lovelace"⟩⟩ "templ").2 rfl,
   (C6_render_endpoint (fun templ _ => templ) (fun _ => [37, 80, 68, 70]) 999
      ⟨404, ⟨none, none⟩⟩ "templ").1 (by decide)⟩

end App
